import Mathlib

/-!
Shallow embedding of the PoseLockTool OpenVR driver
(src/driver/src/tracker_device_driver.cpp and src/driver/src/device_provider.cpp).

Modelling conventions:
* Scalars (`float`/`double` coordinates) are embedded as `ℚ`; the numeric
  literals of the source are exact decimal fractions, so rational arithmetic
  is exact on them.
* `vr::TrackedDevicePose_t` carries a 3x4 matrix `mDeviceToAbsoluteTracking`;
  the host fills it and the driver only ever extracts the translation column
  (`HmdVector3_From34Matrix`) and the rotation (`HmdQuaternion_FromMatrix`).
  The snapshot entry is therefore embedded directly as a position vector plus
  an orientation quaternion, and the two extractors become field projections.
* The host snapshot filled by `GetRawTrackedDevicePoses` is a total function
  `Nat → TrackedDevicePose`: the host defines an entry for every index the
  buffer covers.  The proxy branch of `GetPose` indexes a stack array of
  `k_unMaxTrackedDeviceCount` entries without a bound check; reading past the
  buffer is undefined behavior in the C++ and is embedded as `none`.
* The `while (is_active_)` loop body of `MyPoseUpdateThread` is embedded as a
  single-cycle step function `MyPoseUpdateTick`; a run of the loop is the fold
  `runTicks` over the per-cycle external inputs (settings reads and host
  snapshot).  Submitting a pose (`TrackedDevicePoseUpdated`) is modelled as
  the `Option DriverPose` output of a tick (`none` = nothing submitted).
* Unused zero-initialized fields of `vr::DriverPose_t` (velocities, offsets,
  `willDriftInYaw`, ...) are omitted; no claim and no line of the driver
  touches them.
-/

/-- A quaternion with rational components, embedding `vr::HmdQuaternion_t`. -/
structure Quat where
  w : ℚ
  x : ℚ
  y : ℚ
  z : ℚ
deriving DecidableEq

/-- A 3-vector with rational components, embedding `vr::HmdVector3_t`. -/
structure Vec3 where
  x : ℚ
  y : ℚ
  z : ℚ
deriving DecidableEq

/-- One entry of the host pose snapshot, embedding `vr::TrackedDevicePose_t`
(with the 3x4 matrix replaced by the position/orientation pair the driver
extracts from it). -/
structure TrackedDevicePose where
  bPoseIsValid : Bool
  eTrackingResult : Int
  position : Vec3
  orientation : Quat
deriving DecidableEq

/-- The pose record the driver submits, embedding the fields of
`vr::DriverPose_t` that the driver reads or writes. -/
structure DriverPose where
  qWorldFromDriverRotation : Quat
  qDriverFromHeadRotation : Quat
  deviceIsConnected : Bool
  poseIsValid : Bool
  result : Int
  vecPosition : Vec3
  qRotation : Quat
deriving DecidableEq

/-- Embeds `vr::TrackingResult_Uninitialized`. -/
def TrackingResult_Uninitialized : Int := 1

/-- Embeds `vr::TrackingResult_Running_OK`. -/
def TrackingResult_Running_OK : Int := 200

/-- Embeds `vr::k_unTrackedDeviceIndexInvalid` (0xFFFFFFFF), the sentinel
meaning "no device". -/
def k_unTrackedDeviceIndexInvalid : Nat := 4294967295

/-- Embeds `vr::k_unMaxTrackedDeviceCount`: the length of the stack buffer
`all_poses` that the proxy branch of `GetPose` indexes into. -/
def k_unMaxTrackedDeviceCount : Nat := 64

/-- Embeds `vr::VRInitError_None`. -/
def VRInitError_None : Int := 0

/-- The all-zero quaternion (`pose = { 0 }` zero-initialization). -/
def zeroQuat : Quat := ⟨0, 0, 0, 0⟩

/-- The zero vector (`pose = { 0 }` zero-initialization). -/
def zeroVec3 : Vec3 := ⟨0, 0, 0⟩

/-- Embeds the zero-initialization `vr::DriverPose_t pose = ... 0 ...;` of
line 155: every field zero. -/
def zeroDriverPose : DriverPose :=
  { qWorldFromDriverRotation := zeroQuat
    qDriverFromHeadRotation := zeroQuat
    deviceIsConnected := false
    poseIsValid := false
    result := 0
    vecPosition := zeroVec3
    qRotation := zeroQuat }

/-- The pose after the unconditional header of `GetPose` (lines 155-161):
zero-initialize, set `qWorldFromDriverRotation.w = 1`,
`qDriverFromHeadRotation.w = 1`, `deviceIsConnected = true`. -/
def initPose : DriverPose :=
  { zeroDriverPose with
    qWorldFromDriverRotation := ⟨1, 0, 0, 0⟩
    qDriverFromHeadRotation := ⟨1, 0, 0, 0⟩
    deviceIsConnected := true }

/-- Modelled from the spec: componentwise vector addition, the
`operator+(HmdVector3_t, HmdVector3_t)` of vrmath.h (not under src/), used as
"add it to the head's position". -/
def vecAdd (a b : Vec3) : Vec3 := ⟨a.x + b.x, a.y + b.y, a.z + b.z⟩

/-- Hamilton product of two quaternions. -/
def quatMul (a b : Quat) : Quat :=
  ⟨a.w * b.w - a.x * b.x - a.y * b.y - a.z * b.z,
   a.w * b.x + a.x * b.w + a.y * b.z - a.z * b.y,
   a.w * b.y - a.x * b.z + a.y * b.w + a.z * b.x,
   a.w * b.z + a.x * b.y - a.y * b.x + a.z * b.w⟩

/-- Quaternion conjugate. -/
def quatConj (q : Quat) : Quat := ⟨q.w, -q.x, -q.y, -q.z⟩

/-- Modelled from the spec: the `operator*(HmdVector3_t, HmdQuaternion_t)` of
vrmath.h (not under src/), specified as "Rotate this offset vector by the
head's orientation quaternion": the unit-quaternion rotation
`q * (0, v) * conj q`. -/
def rotateVecByQuat (v : Vec3) (q : Quat) : Vec3 :=
  let p : Quat := ⟨0, v.x, v.y, v.z⟩
  let r := quatMul (quatMul q p) (quatConj q)
  ⟨r.x, r.y, r.z⟩

/-- Embedding of `MyTrackerDeviceDriver::GetPose` (tracker_device_driver.cpp,
lines 152-226).  Parameters are the member variables the function reads
(`proxy_mode_enabled_`, `target_device_index_`, `my_tracker_id_`) and the
host snapshot behind `GetRawTrackedDevicePoses`.  The proxy branch indexes
the 64-entry stack buffer `all_poses` with `target_device_index_` without a
bound check; an index `≥ k_unMaxTrackedDeviceCount` is an out-of-bounds read
(undefined behavior), embedded as `none`. -/
def GetPose (proxy_mode_enabled : Bool) (target_device_index : Nat)
    (my_tracker_id : Nat) (host : Nat → TrackedDevicePose) :
    Option DriverPose :=
  if proxy_mode_enabled && !(target_device_index == k_unTrackedDeviceIndexInvalid) then
    if target_device_index < k_unMaxTrackedDeviceCount then
      let target_pose := host target_device_index
      some { initPose with
        poseIsValid := target_pose.bPoseIsValid
        result := target_pose.eTrackingResult
        vecPosition := target_pose.position
        qRotation := target_pose.orientation }
    else
      none
  else
    let hmd_pose := host 0
    if hmd_pose.bPoseIsValid then
      let hmd_position := hmd_pose.position
      let hmd_orientation := hmd_pose.orientation
      let offset_position : Vec3 :=
        ⟨-0.15 + (my_tracker_id : ℚ) * 0.15, 0.1, -0.5⟩
      let final_position := vecAdd hmd_position (rotateVecByQuat offset_position hmd_orientation)
      some { initPose with
        qRotation := hmd_orientation
        vecPosition := final_position
        poseIsValid := true
        result := TrackingResult_Running_OK }
    else
      some { initPose with
        poseIsValid := false
        result := TrackingResult_Uninitialized }

/-- Does `needle` occur at the very start of `hay`? -/
def beginsWith : List Char → List Char → Bool
  | _, [] => true
  | [], _ :: _ => false
  | h :: hs, n :: ns => h == n && beginsWith hs ns

/-- Does `needle` occur contiguously anywhere in `hay`?  Embeds the
`std::string::find(sub) != std::string::npos` test (tracker_device_driver.cpp
line 77). -/
def hasSubstr (hay needle : List Char) : Bool :=
  match hay with
  | [] => needle.isEmpty
  | h :: t => beginsWith (h :: t) needle || hasSubstr t needle

/-- The settings values one update cycle (or one activation) can read.
`proxy_target` embeds `VRSettings()->GetInt32("PoseLockProxy",
"proxy_target_for_<serial>")`: `none` when the read reports an error
(setting missing), `some v` for a successful read of `v`.
`enabled_trackers` embeds the string read from
`("PoseLockDriver", "enabled_trackers")`. -/
structure Settings where
  proxy_target : Option Int
  enabled_trackers : String

/-- The member state of one `MyTrackerDeviceDriver` that the embedded
operations read or write. -/
structure DeviceState where
  is_active : Bool
  has_last_known_good_pose : Bool
  pose_locking_enabled : Bool
  proxy_mode_enabled : Bool
  target_device_index : Nat
  my_tracker_id : Nat
  my_device_serial_number : String
  my_device_index : Nat
  last_known_good_pose : DriverPose
deriving DecidableEq

/-- Embedding of the `MyTrackerDeviceDriver` constructor (lines 18-44):
flags cleared, sentinel target, serial number derived from the fixed model
string plus the tracker id.  `my_device_index_` and
`last_known_good_pose_` are uninitialized in the C++ until first written;
they are given the values 0 / zero pose here (no claim reads them before
they are written). -/
def mkMyTrackerDeviceDriver (my_tracker_id : Nat) : DeviceState :=
  { is_active := false
    has_last_known_good_pose := false
    pose_locking_enabled := false
    proxy_mode_enabled := false
    target_device_index := k_unTrackedDeviceIndexInvalid
    my_tracker_id := my_tracker_id
    my_device_serial_number := "MyTrackerModelNumber" ++ toString my_tracker_id
    my_device_index := 0
    last_known_good_pose := zeroDriverPose }

/-- Embedding of the settings-derived part of
`MyTrackerDeviceDriver::Activate` (lines 50-124): set `is_active_`, record
the object id, and set `pose_locking_enabled_` iff the serial number occurs
as a substring of the `enabled_trackers` settings string; the return value
is always `VRInitError_None`.  (Property/input registration has no effect on
the embedded state.) -/
def Activate (st : DeviceState) (unObjectId : Nat) (s : Settings) :
    DeviceState × Int :=
  ({ st with
      is_active := true
      my_device_index := unObjectId
      pose_locking_enabled :=
        hasSubstr s.enabled_trackers.data st.my_device_serial_number.data },
   VRInitError_None)

/-- Embedding of `MyTrackerDeviceDriver::Deactivate` (lines 313-325):
`is_active_.exchange(false)` guards the thread join; the Boolean output
records whether a join was attempted.  The device index is unassigned
unconditionally. -/
def Deactivate (st : DeviceState) : DeviceState × Bool :=
  ({ st with
      is_active := false
      my_device_index := k_unTrackedDeviceIndexInvalid },
   st.is_active)

/-- The C cast `(uint32_t)target_index` (line 250). -/
def uint32OfInt (v : Int) : Nat := (v % 4294967296).toNat

/-- Embedding of the proxy-settings block at the top of the update loop
(lines 232-257): a failed read defaults `target_index` to -1; a value other
than -1 enables proxy mode with the cast target index; -1 disables proxy
mode and stores the sentinel. -/
def readProxyConfig (st : DeviceState) (proxy_setting : Option Int) :
    DeviceState :=
  let target_index : Int :=
    match proxy_setting with
    | none => -1
    | some v => v
  if target_index ≠ -1 then
    { st with
        proxy_mode_enabled := true
        target_device_index := uint32OfInt target_index }
  else
    { st with
        proxy_mode_enabled := false
        target_device_index := k_unTrackedDeviceIndexInvalid }

/-- Embedding of one iteration of the `while (is_active_)` loop body of
`MyTrackerDeviceDriver::MyPoseUpdateThread` (lines 228-296): re-read the
proxy settings, then either run the pose-locking logic (cache valid fresh
poses; if a cached pose exists, force it valid and submit it; otherwise
submit nothing) or submit `GetPose()` directly.  The result is the updated
state and the pose submitted this cycle (`none` = nothing submitted); the
whole result is `none` when `GetPose` hits the out-of-bounds read. -/
def MyPoseUpdateTick (st : DeviceState) (s : Settings)
    (host : Nat → TrackedDevicePose) :
    Option (DeviceState × Option DriverPose) :=
  let st1 := readProxyConfig st s.proxy_target
  if st1.pose_locking_enabled then
    (GetPose st1.proxy_mode_enabled st1.target_device_index st1.my_tracker_id host).map
      (fun current_pose =>
        let st2 :=
          if current_pose.poseIsValid then
            { st1 with
                last_known_good_pose := current_pose
                has_last_known_good_pose := true }
          else st1
        if st2.has_last_known_good_pose then
          let sent := { st2.last_known_good_pose with poseIsValid := true }
          ({ st2 with last_known_good_pose := sent }, some sent)
        else
          (st2, none))
  else
    (GetPose st1.proxy_mode_enabled st1.target_device_index st1.my_tracker_id host).map
      (fun p => (st1, some p))

/-- A run of consecutive update cycles: thread the device state through
`MyPoseUpdateTick` over the list of per-cycle external inputs, collecting
the per-cycle submissions.  `none` when any cycle hits undefined behavior. -/
def runTicks (st : DeviceState) :
    List (Settings × (Nat → TrackedDevicePose)) →
    Option (DeviceState × List (Option DriverPose))
  | [] => some (st, [])
  | (s, host) :: rest =>
    match MyPoseUpdateTick st s host with
    | none => none
    | some (st1, sub) =>
      match runTicks st1 rest with
      | none => none
      | some (st2, subs) => some (st2, sub :: subs)

/-- Embedding of `MyDeviceProvider::Init` (device_provider.cpp, lines
10-40): read the tracker count (`none` = read error, defaulting to 0), then
create trackers with ids `10 + i` for `i < num_trackers`; the return value
is always `VRInitError_None`. -/
def Init (num_setting : Option Int) : List DeviceState × Int :=
  let num_trackers : Int :=
    match num_setting with
    | none => 0
    | some v => v
  ((List.range num_trackers.toNat).map (fun i => mkMyTrackerDeviceDriver (10 + i)),
   VRInitError_None)

/-- A host snapshot with every entry (in particular the HMD entry 0) valid
at the origin with identity orientation. -/
def hostHeadIdentity : Nat → TrackedDevicePose :=
  fun _ => ⟨true, TrackingResult_Running_OK, zeroVec3, ⟨1, 0, 0, 0⟩⟩

/-- A host snapshot whose entries (in particular the HMD entry 0) are all
marked invalid. -/
def hostHeadInvalid : Nat → TrackedDevicePose :=
  fun _ => ⟨false, 0, zeroVec3, zeroQuat⟩

/-- A concrete valid driver pose, used as a cached last-known-good pose in
concrete scenarios. -/
def poseW : DriverPose :=
  { initPose with poseIsValid := true, result := TrackingResult_Running_OK }

/-- Tracker 10 in a state where pose locking is enabled and a valid pose has
already been cached. -/
def stLockedW : DeviceState :=
  { mkMyTrackerDeviceDriver 10 with
      pose_locking_enabled := true
      has_last_known_good_pose := true
      last_known_good_pose := poseW }

/-- A settings snapshot in which every read fails / is absent. -/
def settingsAbsent : Settings := ⟨none, ""⟩

/-- A settings snapshot in which the proxy read fails but the
pose-locking enable list names tracker 10's serial number. -/
def settingsLockTen : Settings := ⟨none, "MyTrackerModelNumber10"⟩

/-- C1: the proxy branch of `GetPose` guards only against the sentinel
`k_unTrackedDeviceIndexInvalid`, not against indices at or beyond
`k_unMaxTrackedDeviceCount`: a proxy target of 64 (the buffer length) makes
`GetPose` read past the 64-entry stack buffer `all_poses` — undefined
behavior, embedded as `none` — rather than returning a pose with
`poseIsValid = false`.  The bug is reachable from an update cycle whose
proxy setting reads 64. -/
theorem C1_proxy_out_of_range_undefined_read :
    GetPose true k_unMaxTrackedDeviceCount 10 hostHeadIdentity = none ∧
    MyPoseUpdateTick (mkMyTrackerDeviceDriver 10) ⟨some 64, ""⟩
      hostHeadIdentity = none := by
  constructor <;> rfl

/-- C4 counterexample: the device provider creates trackers with ids
starting at 10, not 0, so with the head valid at the origin with identity
orientation the first tracker created reports position (1.35, 0.1, -0.5),
not (-0.15, 0.1, -0.5). -/
theorem C4_head_relative_positions_counterexample :
    (Init (some 2)).fst.map DeviceState.my_tracker_id = [10, 11] ∧
    (GetPose false k_unTrackedDeviceIndexInvalid 10 hostHeadIdentity).map
      DriverPose.vecPosition = some ⟨1.35, 0.1, -0.5⟩ ∧
    (Vec3.mk 1.35 0.1 (-0.5)) ≠ ⟨-0.15, 0.1, -0.5⟩ := by
  refine ⟨by decide, ?_, by norm_num [Vec3.mk.injEq]⟩
  simp [GetPose, hostHeadIdentity, vecAdd, rotateVecByQuat, quatMul, quatConj,
    zeroVec3]
  norm_num

/-- C4 amended: with two devices configured, the provider creates trackers
with ids 10 and 11; with the head pose valid at the origin with identity
orientation, the first tracker reports position (1.35, 0.1, -0.5) and the
second (1.5, 0.1, -0.5) in direct (head-relative) mode. -/
theorem C4_head_relative_positions :
    (Init (some 2)).fst.map DeviceState.my_tracker_id = [10, 11] ∧
    (GetPose false k_unTrackedDeviceIndexInvalid 10 hostHeadIdentity).map
      DriverPose.vecPosition = some ⟨1.35, 0.1, -0.5⟩ ∧
    (GetPose false k_unTrackedDeviceIndexInvalid 11 hostHeadIdentity).map
      DriverPose.vecPosition = some ⟨1.5, 0.1, -0.5⟩ := by
  refine ⟨by decide, ?_, ?_⟩ <;>
    · simp [GetPose, hostHeadIdentity, vecAdd, rotateVecByQuat, quatMul,
        quatConj, zeroVec3]
      norm_num

/-- C5: in direct mode (proxy disabled), for every tracker id and every
host snapshot whose head pose is valid, `GetPose` returns the pose whose
position is the offset vector (-0.15 + 0.15 * id, 0.1, -0.5) rotated by the
head's orientation quaternion and added to the head's position, whose
orientation is the head's orientation unchanged, marked valid with tracking
result Running_OK. -/
theorem C5_direct_mode_formula (target_device_index my_tracker_id : Nat)
    (host : Nat → TrackedDevicePose)
    (hvalid : (host 0).bPoseIsValid = true) :
    GetPose false target_device_index my_tracker_id host = some
      { initPose with
        qRotation := (host 0).orientation
        vecPosition := vecAdd (host 0).position
          (rotateVecByQuat ⟨-0.15 + 0.15 * (my_tracker_id : ℚ), 0.1, -0.5⟩
            (host 0).orientation)
        poseIsValid := true
        result := TrackingResult_Running_OK } := by
  simp [GetPose, hvalid, mul_comm]

/-- Witness for C5 at tracker id 10 and the identity head pose. -/
theorem C5_direct_mode_formula_witness :
    (hostHeadIdentity 0).bPoseIsValid = true ∧
    GetPose false k_unTrackedDeviceIndexInvalid 10 hostHeadIdentity = some
      { initPose with
        qRotation := (hostHeadIdentity 0).orientation
        vecPosition := vecAdd (hostHeadIdentity 0).position
          (rotateVecByQuat ⟨-0.15 + 0.15 * ((10 : Nat) : ℚ), 0.1, -0.5⟩
            (hostHeadIdentity 0).orientation)
        poseIsValid := true
        result := TrackingResult_Running_OK } :=
  ⟨rfl, C5_direct_mode_formula k_unTrackedDeviceIndexInvalid 10 hostHeadIdentity rfl⟩

/-- C6: in proxy mode, for every in-range proxy target (index within the
snapshot buffer), the resolved pose copies the target's validity flag,
tracking result, position and orientation verbatim from the snapshot. -/
theorem C6_proxy_copies_target (target_device_index my_tracker_id : Nat)
    (host : Nat → TrackedDevicePose)
    (hlt : target_device_index < k_unMaxTrackedDeviceCount) :
    GetPose true target_device_index my_tracker_id host = some
      { initPose with
        poseIsValid := (host target_device_index).bPoseIsValid
        result := (host target_device_index).eTrackingResult
        vecPosition := (host target_device_index).position
        qRotation := (host target_device_index).orientation } := by
  have h64 : target_device_index < 64 := hlt
  have hne : (target_device_index == k_unTrackedDeviceIndexInvalid) = false := by
    simp only [beq_eq_false_iff_ne, ne_eq, k_unTrackedDeviceIndexInvalid]
    omega
  simp [GetPose, hne, hlt]

/-- Witness for C6 at proxy target 3, tracker id 10. -/
theorem C6_proxy_copies_target_witness :
    (3 : Nat) < k_unMaxTrackedDeviceCount ∧
    GetPose true 3 10 hostHeadIdentity = some
      { initPose with
        poseIsValid := (hostHeadIdentity 3).bPoseIsValid
        result := (hostHeadIdentity 3).eTrackingResult
        vecPosition := (hostHeadIdentity 3).position
        qRotation := (hostHeadIdentity 3).orientation } :=
  ⟨by decide, C6_proxy_copies_target 3 10 hostHeadIdentity (by decide)⟩

/-- C9: whenever the head pose in the snapshot is invalid and the proxy
branch is not taken (direct mode), `GetPose` returns the pose marked
invalid with tracking result Uninitialized, and performs no further
computation: position and orientation keep their zero-initialized values. -/
theorem C9_invalid_head_uninitialized (proxy_mode_enabled : Bool)
    (target_device_index my_tracker_id : Nat)
    (host : Nat → TrackedDevicePose)
    (hdirect : (proxy_mode_enabled &&
      !(target_device_index == k_unTrackedDeviceIndexInvalid)) = false)
    (hinvalid : (host 0).bPoseIsValid = false) :
    GetPose proxy_mode_enabled target_device_index my_tracker_id host =
      some { initPose with
        poseIsValid := false
        result := TrackingResult_Uninitialized } := by
  simp [GetPose, hdirect, hinvalid]

/-- Witness for C9 with proxy mode disabled and an invalid head snapshot. -/
theorem C9_invalid_head_uninitialized_witness :
    ((false : Bool) &&
      !((k_unTrackedDeviceIndexInvalid : Nat) == k_unTrackedDeviceIndexInvalid)) = false ∧
    (hostHeadInvalid 0).bPoseIsValid = false ∧
    GetPose false k_unTrackedDeviceIndexInvalid 10 hostHeadInvalid =
      some { initPose with
        poseIsValid := false
        result := TrackingResult_Uninitialized } :=
  ⟨rfl, rfl,
    C9_invalid_head_uninitialized false k_unTrackedDeviceIndexInvalid 10
      hostHeadInvalid rfl rfl⟩

/-- C10: every pose `GetPose` returns, on every branch, carries the
identity-rotation convention quaternions: `qWorldFromDriverRotation` and
`qDriverFromHeadRotation` are both the identity quaternion. -/
theorem C10_quaternion_convention (proxy_mode_enabled : Bool)
    (target_device_index my_tracker_id : Nat)
    (host : Nat → TrackedDevicePose) (p : DriverPose)
    (h : GetPose proxy_mode_enabled target_device_index my_tracker_id host = some p) :
    p.qWorldFromDriverRotation = ⟨1, 0, 0, 0⟩ ∧
    p.qDriverFromHeadRotation = ⟨1, 0, 0, 0⟩ := by
  unfold GetPose at h
  dsimp only at h
  split at h
  · split at h
    · injection h with h
      subst h
      exact ⟨rfl, rfl⟩
    · exact Option.noConfusion h
  · split at h
    · injection h with h
      subst h
      exact ⟨rfl, rfl⟩
    · injection h with h
      subst h
      exact ⟨rfl, rfl⟩

/-- Witness for C10 on the invalid-head direct branch. -/
theorem C10_quaternion_convention_witness :
    GetPose false k_unTrackedDeviceIndexInvalid 10 hostHeadInvalid =
      some { initPose with
        poseIsValid := false
        result := TrackingResult_Uninitialized } ∧
    ({ initPose with
        poseIsValid := false
        result := TrackingResult_Uninitialized } : DriverPose).qWorldFromDriverRotation = ⟨1, 0, 0, 0⟩ ∧
    ({ initPose with
        poseIsValid := false
        result := TrackingResult_Uninitialized } : DriverPose).qDriverFromHeadRotation = ⟨1, 0, 0, 0⟩ :=
  ⟨rfl,
    C10_quaternion_convention false k_unTrackedDeviceIndexInvalid 10
      hostHeadInvalid _ rfl⟩

/-- C7: `Deactivate` is an idempotent, safe no-op on a device that is not
active: if the device was never activated no thread join is attempted and
the device stays inactive, and a second `Deactivate` after a first one
attempts no join, leaves the device inactive, and leaves the device index
unassigned. -/
theorem C7_deactivate_idempotent (st : DeviceState) :
    (st.is_active = false →
      (Deactivate st).snd = false ∧ (Deactivate st).fst.is_active = false) ∧
    (Deactivate (Deactivate st).fst).snd = false ∧
    (Deactivate (Deactivate st).fst).fst.is_active = false ∧
    (Deactivate (Deactivate st).fst).fst.my_device_index =
      k_unTrackedDeviceIndexInvalid := by
  exact ⟨fun h => ⟨h, rfl⟩, rfl, rfl, rfl⟩

/-- Witness for C7 on a freshly constructed (never activated) tracker. -/
theorem C7_deactivate_idempotent_witness :
    (Deactivate (mkMyTrackerDeviceDriver 10)).snd = false ∧
    (Deactivate (mkMyTrackerDeviceDriver 10)).fst.is_active = false :=
  (C7_deactivate_idempotent (mkMyTrackerDeviceDriver 10)).1 rfl

/-- C8: a failed or absent configuration read is replaced locally by the
documented default and never surfaced to the host: a missing device-count
setting yields zero created trackers (and `Init` reports no error for any
read outcome), and a missing per-device proxy-target setting disables proxy
mode with the sentinel target for that cycle. -/
theorem C8_config_read_failure_defaults (st : DeviceState) :
    (Init none).fst = [] ∧
    (∀ s : Option Int, (Init s).snd = VRInitError_None) ∧
    (readProxyConfig st none).proxy_mode_enabled = false ∧
    (readProxyConfig st none).target_device_index =
      k_unTrackedDeviceIndexInvalid := by
  exact ⟨rfl, fun _ => rfl, rfl, rfl⟩

/-- C3 counterexample: the update loop does not re-read the pose-locking
setting.  With external settings whose enable list names tracker 10's
serial number — so that an activation under these settings would enable
pose locking — a tick on a tracker whose flag is disabled still leaves the
flag disabled. -/
theorem C3_tick_rereads_config_counterexample :
    (Activate (mkMyTrackerDeviceDriver 10) 5 settingsLockTen).fst.pose_locking_enabled = true ∧
    (MyPoseUpdateTick (mkMyTrackerDeviceDriver 10) settingsLockTen
      hostHeadInvalid).map (fun r => r.fst.pose_locking_enabled) = some false := by
  exact ⟨by decide, by decide⟩

theorem readProxyConfig_pose_locking_enabled (st : DeviceState) (v : Option Int) :
    (readProxyConfig st v).pose_locking_enabled = st.pose_locking_enabled := by
  unfold readProxyConfig
  split <;> (first | rfl | (dsimp only; split <;> rfl))

theorem readProxyConfig_has (st : DeviceState) (v : Option Int) :
    (readProxyConfig st v).has_last_known_good_pose =
      st.has_last_known_good_pose := by
  unfold readProxyConfig
  split <;> (first | rfl | (dsimp only; split <;> rfl))

theorem readProxyConfig_cache (st : DeviceState) (v : Option Int) :
    (readProxyConfig st v).last_known_good_pose = st.last_known_good_pose := by
  unfold readProxyConfig
  split <;> (first | rfl | (dsimp only; split <;> rfl))

theorem readProxyConfig_tracker_id (st : DeviceState) (v : Option Int) :
    (readProxyConfig st v).my_tracker_id = st.my_tracker_id := by
  unfold readProxyConfig
  split <;> (first | rfl | (dsimp only; split <;> rfl))

theorem readProxyConfig_absent (st : DeviceState) (v : Option Int)
    (hv : v = none ∨ v = some (-1)) :
    (readProxyConfig st v).proxy_mode_enabled = false ∧
    (readProxyConfig st v).target_device_index =
      k_unTrackedDeviceIndexInvalid := by
  rcases hv with rfl | rfl <;> exact ⟨rfl, rfl⟩

theorem readProxyConfig_present (st : DeviceState) (v : Int) (hv : v ≠ -1) :
    (readProxyConfig st (some v)).proxy_mode_enabled = true ∧
    (readProxyConfig st (some v)).target_device_index = uint32OfInt v := by
  unfold readProxyConfig
  rw [if_pos hv]
  exact ⟨rfl, rfl⟩

theorem DriverPose_setValid_of_valid (p : DriverPose)
    (h : p.poseIsValid = true) : { p with poseIsValid := true } = p := by
  cases p
  simp_all

theorem tick_config_fields (st : DeviceState) (s : Settings)
    (host : Nat → TrackedDevicePose) (st' : DeviceState)
    (sub : Option DriverPose)
    (h : MyPoseUpdateTick st s host = some (st', sub)) :
    st'.proxy_mode_enabled = (readProxyConfig st s.proxy_target).proxy_mode_enabled ∧
    st'.target_device_index = (readProxyConfig st s.proxy_target).target_device_index ∧
    st'.pose_locking_enabled = st.pose_locking_enabled := by
  unfold MyPoseUpdateTick at h
  dsimp only at h
  split at h
  · cases hg : GetPose (readProxyConfig st s.proxy_target).proxy_mode_enabled
        (readProxyConfig st s.proxy_target).target_device_index
        (readProxyConfig st s.proxy_target).my_tracker_id host with
    | none =>
      rw [hg] at h
      exact Option.noConfusion h
    | some cp =>
      rw [hg] at h
      simp only [Option.map_some'] at h
      injection h with h
      split at h <;> split at h <;>
        (injection h with h1 h2; subst h1;
         exact ⟨rfl, rfl, readProxyConfig_pose_locking_enabled st s.proxy_target⟩)
  · cases hg : GetPose (readProxyConfig st s.proxy_target).proxy_mode_enabled
        (readProxyConfig st s.proxy_target).target_device_index
        (readProxyConfig st s.proxy_target).my_tracker_id host with
    | none =>
      rw [hg] at h
      exact Option.noConfusion h
    | some cp =>
      rw [hg] at h
      simp only [Option.map_some'] at h
      injection h with h
      injection h with h1 h2
      subst h1
      exact ⟨rfl, rfl, readProxyConfig_pose_locking_enabled st s.proxy_target⟩

theorem tick_locking_step (st : DeviceState) (s : Settings)
    (host : Nat → TrackedDevicePose) (st' : DeviceState)
    (sub : Option DriverPose)
    (hlock : st.pose_locking_enabled = true)
    (hhas : st.has_last_known_good_pose = true)
    (h : MyPoseUpdateTick st s host = some (st', sub)) :
    st'.pose_locking_enabled = true ∧
    st'.has_last_known_good_pose = true ∧
    ∃ p, sub = some p ∧ p.poseIsValid = true := by
  unfold MyPoseUpdateTick at h
  dsimp only at h
  split at h
  · cases hg : GetPose (readProxyConfig st s.proxy_target).proxy_mode_enabled
        (readProxyConfig st s.proxy_target).target_device_index
        (readProxyConfig st s.proxy_target).my_tracker_id host with
    | none =>
      rw [hg] at h
      exact Option.noConfusion h
    | some cp =>
      rw [hg] at h
      simp only [Option.map_some'] at h
      injection h with h
      split at h
      · split at h
        · injection h with h1 h2
          subst h1
          subst h2
          exact ⟨(readProxyConfig_pose_locking_enabled st s.proxy_target).trans hlock,
                 rfl, _, rfl, rfl⟩
        · next hc =>
          exact absurd rfl hc
      · split at h
        · injection h with h1 h2
          subst h1
          subst h2
          exact ⟨(readProxyConfig_pose_locking_enabled st s.proxy_target).trans hlock,
                 (readProxyConfig_has st s.proxy_target).trans hhas, _, rfl, rfl⟩
        · next hc =>
          exact absurd ((readProxyConfig_has st s.proxy_target).trans hhas) hc
  · next hc =>
    exact absurd ((readProxyConfig_pose_locking_enabled st s.proxy_target).trans hlock) hc

theorem runTicks_locked_valid
    (inputs : List (Settings × (Nat → TrackedDevicePose))) :
    ∀ st stf subs, st.pose_locking_enabled = true →
      st.has_last_known_good_pose = true →
      runTicks st inputs = some (stf, subs) →
      ∀ sub ∈ subs, ∃ p, sub = some p ∧ p.poseIsValid = true := by
  induction inputs with
  | nil =>
    intro st stf subs _ _ h sub hsub
    unfold runTicks at h
    injection h with h
    injection h with h1 h2
    subst h2
    cases hsub
  | cons i rest ih =>
    obtain ⟨s, host⟩ := i
    intro st stf subs hlock hhas h sub hsub
    unfold runTicks at h
    cases ht : MyPoseUpdateTick st s host with
    | none =>
      rw [ht] at h
      exact Option.noConfusion h
    | some r =>
      obtain ⟨st1, sub1⟩ := r
      rw [ht] at h
      dsimp only at h
      cases hr : runTicks st1 rest with
      | none =>
        rw [hr] at h
        exact Option.noConfusion h
      | some r2 =>
        obtain ⟨st2, subs2⟩ := r2
        rw [hr] at h
        injection h with h
        injection h with h1 h2
        subst h1
        subst h2
        obtain ⟨hl1, hh1, p, hp1, hp2⟩ :=
          tick_locking_step st s host st1 sub1 hlock hhas ht
        cases hsub with
        | head =>
          exact ⟨p, hp1, hp2⟩
        | tail _ hsub2 =>
          exact ih st1 st2 subs2 hl1 hh1 hr sub hsub2

/-- C3 amended: on every tick the update loop re-reads only the proxy
target from external settings — a failed or -1 read disables proxy mode
with the sentinel target, any other value enables proxy mode with the cast
target index, regardless of the previous per-device proxy state — while
the pose-locking flag is not re-read by the tick: it is left exactly as it
was, having been derived from external settings once during `Activate`
(not fixed at construction). -/
theorem C3_tick_rereads_proxy_only (st st' : DeviceState) (s : Settings)
    (host : Nat → TrackedDevicePose) (sub : Option DriverPose)
    (h : MyPoseUpdateTick st s host = some (st', sub)) :
    (s.proxy_target = none ∨ s.proxy_target = some (-1) →
      st'.proxy_mode_enabled = false ∧
      st'.target_device_index = k_unTrackedDeviceIndexInvalid) ∧
    (∀ v : Int, s.proxy_target = some v → v ≠ -1 →
      st'.proxy_mode_enabled = true ∧
      st'.target_device_index = uint32OfInt v) ∧
    st'.pose_locking_enabled = st.pose_locking_enabled ∧
    (∀ (st0 : DeviceState) (objId : Nat) (s2 : Settings),
      (Activate st0 objId s2).fst.pose_locking_enabled =
        hasSubstr s2.enabled_trackers.data st0.my_device_serial_number.data) := by
  obtain ⟨hp, ht, hl⟩ := tick_config_fields st s host st' sub h
  refine ⟨?_, ?_, hl, fun _ _ _ => rfl⟩
  · intro hv
    obtain ⟨h1, h2⟩ := readProxyConfig_absent st s.proxy_target hv
    exact ⟨hp.trans h1, ht.trans h2⟩
  · intro v hv hne
    rw [hv] at hp ht
    obtain ⟨h1, h2⟩ := readProxyConfig_present st v hne
    exact ⟨hp.trans h1, ht.trans h2⟩

/-- Witness for C3 amended: a tick of tracker 10 under absent settings. -/
theorem C3_tick_rereads_proxy_only_witness :
    (mkMyTrackerDeviceDriver 10).proxy_mode_enabled = false ∧
    (mkMyTrackerDeviceDriver 10).target_device_index =
      k_unTrackedDeviceIndexInvalid :=
  (C3_tick_rereads_proxy_only (mkMyTrackerDeviceDriver 10)
    (mkMyTrackerDeviceDriver 10) settingsAbsent hostHeadInvalid
    (some { initPose with
      poseIsValid := false
      result := TrackingResult_Uninitialized }) rfl).1 (Or.inl rfl)

/-- C2: the pose-locking policy of the update cycle.  With pose locking
enabled: (1) a freshly computed valid pose replaces the cached
last-known-good pose; (2) whenever a cached pose exists after the cache
update, the pose submitted that cycle is exactly the cached pose and is
valid; (3) if no pose has ever been cached, nothing is submitted that
cycle; (4) once any valid pose has been cached, every subsequent cycle of
any run submits a pose with `poseIsValid = true` — a locked tracker never
again submits an invalid pose. -/
theorem C2_pose_locking_policy (st : DeviceState) (s : Settings)
    (host : Nat → TrackedDevicePose)
    (hlock : st.pose_locking_enabled = true) :
    (∀ cp st' sub,
      GetPose (readProxyConfig st s.proxy_target).proxy_mode_enabled
        (readProxyConfig st s.proxy_target).target_device_index
        (readProxyConfig st s.proxy_target).my_tracker_id host = some cp →
      cp.poseIsValid = true →
      MyPoseUpdateTick st s host = some (st', sub) →
      st'.has_last_known_good_pose = true ∧
      st'.last_known_good_pose = cp ∧ sub = some cp) ∧
    (∀ st' sub, MyPoseUpdateTick st s host = some (st', sub) →
      st'.has_last_known_good_pose = true →
      sub = some st'.last_known_good_pose ∧
      st'.last_known_good_pose.poseIsValid = true) ∧
    (∀ st' sub, MyPoseUpdateTick st s host = some (st', sub) →
      st'.has_last_known_good_pose = false → sub = none) ∧
    (∀ inputs stf subs, st.has_last_known_good_pose = true →
      runTicks st inputs = some (stf, subs) →
      ∀ sub ∈ subs, ∃ p, sub = some p ∧ p.poseIsValid = true) := by
  refine ⟨?_, ?_, ?_, ?_⟩
  · intro cp st' sub hg hv htick
    unfold MyPoseUpdateTick at htick
    dsimp only at htick
    split at htick
    · rw [hg] at htick
      simp only [Option.map_some'] at htick
      injection htick with htick
      split at htick
      · split at htick
        · injection htick with h1 h2
          subst h1
          subst h2
          refine ⟨rfl, DriverPose_setValid_of_valid cp hv, ?_⟩
          rw [DriverPose_setValid_of_valid cp hv]
        · rename_i hc
          exact absurd rfl hc
      · rename_i hcv
        exact absurd hv hcv
    · rename_i hc
      exact absurd ((readProxyConfig_pose_locking_enabled st s.proxy_target).trans hlock) hc
  · intro st' sub htick hhas'
    unfold MyPoseUpdateTick at htick
    dsimp only at htick
    split at htick
    · cases hg : GetPose (readProxyConfig st s.proxy_target).proxy_mode_enabled
          (readProxyConfig st s.proxy_target).target_device_index
          (readProxyConfig st s.proxy_target).my_tracker_id host with
      | none =>
        rw [hg] at htick
        exact Option.noConfusion htick
      | some cp =>
        rw [hg] at htick
        simp only [Option.map_some'] at htick
        injection htick with htick
        split at htick
        · split at htick
          · injection htick with h1 h2
            subst h1
            subst h2
            exact ⟨rfl, rfl⟩
          · rename_i hc
            exact absurd rfl hc
        · split at htick
          · injection htick with h1 h2
            subst h1
            subst h2
            exact ⟨rfl, rfl⟩
          · rename_i hc
            injection htick with h1 h2
            subst h1
            exact absurd hhas' hc
    · rename_i hc
      exact absurd ((readProxyConfig_pose_locking_enabled st s.proxy_target).trans hlock) hc
  · intro st' sub htick hhas'
    unfold MyPoseUpdateTick at htick
    dsimp only at htick
    split at htick
    · cases hg : GetPose (readProxyConfig st s.proxy_target).proxy_mode_enabled
          (readProxyConfig st s.proxy_target).target_device_index
          (readProxyConfig st s.proxy_target).my_tracker_id host with
      | none =>
        rw [hg] at htick
        exact Option.noConfusion htick
      | some cp =>
        rw [hg] at htick
        simp only [Option.map_some'] at htick
        injection htick with htick
        split at htick
        · split at htick
          · injection htick with h1 h2
            subst h1
            exact absurd hhas' (by simp)
          · rename_i hc
            exact absurd rfl hc
        · split at htick
          · injection htick with h1 h2
            subst h1
            rename_i hc
            exact absurd hhas' (by simp [hc])
          · injection htick with h1 h2
            subst h2
            rfl
    · rename_i hc
      exact absurd ((readProxyConfig_pose_locking_enabled st s.proxy_target).trans hlock) hc
  · intro inputs stf subs hhas hrun
    exact runTicks_locked_valid inputs st stf subs hlock hhas hrun

/-- Witness for C2: tracker 10 with locking enabled and `poseW` cached,
ticked under absent settings with an invalid head snapshot, submits exactly
the cached pose, still valid. -/
theorem C2_pose_locking_policy_witness :
    some poseW = some stLockedW.last_known_good_pose ∧
    stLockedW.last_known_good_pose.poseIsValid = true :=
  (C2_pose_locking_policy stLockedW settingsAbsent hostHeadInvalid rfl).2.1
    stLockedW (some poseW) rfl rfl
